import Mathlib

/-!
Shallow embedding of `toolchain/check/merge.cpp` (Carbon language toolchain).

The file under verification defines four functions over the semantic-IR
checking context:
  * `ResolvePrevInstForMerge` — resolve a previously-bound instruction for
    merging, diagnosing redeclaration of an already-used import;
  * `ResolveMergeableInst` (static) — canonicalize an instruction for merge
    consideration, or report that merging is infeasible;
  * `ReplacePrevInstForMerge` — rebind a name in a scope's table;
  * `MergeImportRef` — the top-level merge/diagnose decision.

External collaborators (`LoadImportRef`, `MergeFunctionRedecl`,
`DiagnoseDuplicateName`, `Context::TODO`, the diagnostic emitter) live in
other translation units; their invocations are recorded as events in an
explicit trace, and the import loader's effect on the context is taken as an
arbitrary function parameter, so every theorem quantifies over its behavior.
`CARBON_FATAL` (process abort) is modelled by the `FatalOr.fatal` result.
-/

/-- Instruction kinds relevant to `merge.cpp`: the two import-reference
variants (`SemIR::ImportRefUnloaded`, `SemIR::ImportRefUsed`),
`SemIR::Namespace`, `SemIR::FunctionDecl`, and a representative for every
other kind (which `ResolveMergeableInst` rejects fatally). -/
inductive InstKind where
  | ImportRefUnloaded
  | ImportRefUsed
  | Namespace
  | FunctionDecl
  | Other
deriving DecidableEq

/-- A semantic-IR instruction with the payload fields `merge.cpp` reads: the
imported-reference variants carry `import_ir_inst_id` (and, once used, the location
`used_id` of their first use), function declarations carry `function_id`,
namespaces carry their scope id, and all remaining kinds are collapsed into
`other` with an opaque tag. -/
inductive Inst where
  | importRefUnloaded (import_ir_inst_id : Nat)
  | importRefUsed (import_ir_inst_id : Nat) (used_id : Nat)
  | Namespace (name_scope_id : Nat)
  | functionDecl (function_id : Nat)
  | other (tag : Nat)
deriving DecidableEq

/-- The kind tag of an instruction (`Inst::kind()`). -/
def Inst.kind : Inst → InstKind
  | .importRefUnloaded _ => .ImportRefUnloaded
  | .importRefUsed _ _ => .ImportRefUsed
  | .Namespace _ => .Namespace
  | .functionDecl _ => .FunctionDecl
  | .other _ => .Other

/-- An entry of the constant-value table (`SemIR::ConstantId`): either the
instruction is not a compile-time constant, or it designates the canonical
constant-value instruction. -/
inductive ConstantId where
  | notConstant
  | constantOf (inst_id : Nat)
deriving DecidableEq

/-- `ConstantId::is_constant()`. -/
def ConstantId.is_constant : ConstantId → Bool
  | .notConstant => false
  | .constantOf _ => true

/-- Result type of both resolvers (`InstForMerge` in `merge.h`): the
instruction to consider for merging, plus the import it originated from
(`none` models `SemIR::ImportIRInstId::Invalid`). -/
structure InstForMerge where
  inst : Inst
  import_ir_inst_id : Option Nat
deriving DecidableEq

/-- Diagnostic severities used by the `CARBON_DIAGNOSTIC` declarations in
`merge.cpp`. -/
inductive Severity where
  | error
  | note
deriving DecidableEq

/-- The two diagnostic kinds declared in `merge.cpp`. -/
inductive DiagKind where
  | RedeclOfUsedImport
  | UsedImportLoc
deriving DecidableEq

/-- Severity of each declared diagnostic, as written in the
`CARBON_DIAGNOSTIC(...)` declarations. -/
def DiagKind.severity : DiagKind → Severity
  | .RedeclOfUsedImport => .error
  | .UsedImportLoc => .note

/-- Message text of each declared diagnostic. -/
def DiagKind.message : DiagKind → String
  | .RedeclOfUsedImport => "Redeclaration of imported entity that was previously used."
  | .UsedImportLoc => "Import used here."

/-- Observable side effects of the code in `merge.cpp`: calls into external
collaborators and reads of the constant-value table.
  * `loadImportRef i` — call of `LoadImportRef(context, i, LocId::Invalid)`;
  * `constQuery i` — read of `context.constant_values().Get(i)`;
  * `emitDiag k loc notes` — one emitted diagnostic of kind `k` at `loc`
    with its attached notes;
  * `diagnoseDuplicateName new prev` — call of
    `context.DiagnoseDuplicateName(new, prev)`;
  * `mergeFunctionRedecl loc new_fn newIsImport newIsDefinition prev_fn ir` —
    call of `MergeFunctionRedecl` with exactly those arguments;
  * `todo i msg` — call of `context.TODO(i, msg)`. -/
inductive Event where
  | loadImportRef (inst_id : Nat)
  | constQuery (inst_id : Nat)
  | emitDiag (kind : DiagKind) (loc : Nat) (notes : List (DiagKind × Nat))
  | diagnoseDuplicateName (new_inst_id : Nat) (prev_inst_id : Nat)
  | mergeFunctionRedecl (loc_id : Nat) (new_fn : Nat) (newIsImport : Bool)
      (newIsDefinition : Bool) (prev_function_id : Nat)
      (import_ir_inst_id : Option Nat)
  | todo (inst_id : Nat) (message : String)
deriving DecidableEq

/-- Result of a computation that may instead abort the process via
`CARBON_FATAL`; `fatal` records the offending instruction printed in the
fatal message. -/
inductive FatalOr (α : Type) where
  | fatal (offending : Inst)
  | ok (val : α)
deriving DecidableEq

/-- Whether a `FatalOr` result is the fatal abort. -/
def FatalOr.isFatal {α : Type} : FatalOr α → Bool
  | .fatal _ => true
  | .ok _ => false

/-- A name scope's visible bindings: a finite map from `NameId` to `InstId`,
modelled as an association list. -/
structure NameScope where
  names : List (Nat × Nat)
deriving DecidableEq

/-- The slice of `Check::Context` that `merge.cpp` touches: the instruction
store, the constant-value table, per-instruction locations
(`insts().GetLocId`), the function store (`functions().Get`), and the name
scopes. Instruction ids, function ids and scope ids are `Nat`. -/
structure Ctx where
  insts : Nat → Inst
  constant_values : Nat → ConstantId
  loc_ids : Nat → Nat
  functions : Nat → Nat
  name_scopes : Nat → NameScope

/-- `ResolvePrevInstForMerge(context, node_id, prev_inst_id)`.

Returns the resolved `InstForMerge` together with the trace of emitted
diagnostics and constant-table reads. The function mutates nothing in the
context, which the embedding reflects by not returning a context.

If the previous instruction is not an import reference it is returned
directly with no originating import. Otherwise, when the reference was
already used, one `RedeclOfUsedImport` error with one `UsedImportLoc` note
at the recorded use location is emitted; then the reference is followed
through the constant-value table. When the table entry is not constant the
C++ reads `insts().Get(InstId::Invalid)`, which fails the value-store bounds
check; that path is the `none` result. -/
def ResolvePrevInstForMerge (ctx : Ctx) (node_id : Nat) (prev_inst_id : Nat) :
    Option InstForMerge × List Event :=
  match ctx.insts prev_inst_id with
  | .importRefUnloaded ir_id =>
      (match ctx.constant_values prev_inst_id with
       | .constantOf c => some ⟨ctx.insts c, some ir_id⟩
       | .notConstant => none,
       [Event.constQuery prev_inst_id])
  | .importRefUsed ir_id used_id =>
      (match ctx.constant_values prev_inst_id with
       | .constantOf c => some ⟨ctx.insts c, some ir_id⟩
       | .notConstant => none,
       [Event.emitDiag .RedeclOfUsedImport node_id [(.UsedImportLoc, used_id)],
        Event.constQuery prev_inst_id])
  | inst => (some ⟨inst, none⟩, [])

/-- `ResolveMergeableInst(context, inst_id)` (static in `merge.cpp`).

`load` is the external `LoadImportRef` collaborator's effect on the context
(its internals live in `import_ref.cpp`). Dispatch on the instruction's
kind: an unloaded import reference is loaded first; a used one proceeds
directly; a namespace is returned immediately with no originating import and
no constant-table read; any other kind is a caller contract violation and
aborts fatally. For the import-reference branches the constant-value table
is then consulted (in the post-load context); a non-constant entry yields
`ok none` ("not mergeable", silent), and a constant one yields the
designated instruction paired with the import id read from the instruction
fetched before loading. -/
def ResolveMergeableInst (load : Ctx → Nat → Ctx) (ctx : Ctx) (inst_id : Nat) :
    FatalOr (Option InstForMerge) × List Event × Ctx :=
  match ctx.insts inst_id with
  | .importRefUnloaded ir_id =>
      let ctx1 := load ctx inst_id
      (match ctx1.constant_values inst_id with
       | .notConstant => .ok none
       | .constantOf c => .ok (some ⟨ctx1.insts c, some ir_id⟩),
       [Event.loadImportRef inst_id, Event.constQuery inst_id], ctx1)
  | .importRefUsed ir_id _used_id =>
      (match ctx.constant_values inst_id with
       | .notConstant => .ok none
       | .constantOf c => .ok (some ⟨ctx.insts c, some ir_id⟩),
       [Event.constQuery inst_id], ctx)
  | .Namespace ns => (.ok (some ⟨.Namespace ns, none⟩), [], ctx)
  | inst => (.fatal inst, [], ctx)

/-- First-match replacement in an association list: the body of
`ReplacePrevInstForMerge`'s `names.find` / overwrite. An absent key leaves
the list untouched; no entry is ever inserted. -/
def replaceInNames : List (Nat × Nat) → Nat → Nat → List (Nat × Nat)
  | [], _, _ => []
  | (k, v) :: rest, name_id, new_inst_id =>
      if k = name_id then (k, new_inst_id) :: rest
      else (k, v) :: replaceInNames rest name_id new_inst_id

/-- First-match lookup in an association list (`names.find`). -/
def lookupName : List (Nat × Nat) → Nat → Option Nat
  | [], _ => none
  | (k, v) :: rest, name_id =>
      if k = name_id then some v else lookupName rest name_id

/-- `ReplacePrevInstForMerge(context, scope_id, name_id, new_inst_id)`:
overwrite the name's binding in the scope's table when present; otherwise do
nothing. -/
def ReplacePrevInstForMerge (ctx : Ctx) (scope_id : Nat) (name_id : Nat)
    (new_inst_id : Nat) : Ctx :=
  { ctx with
    name_scopes := fun s =>
      if s = scope_id then
        ⟨replaceInNames (ctx.name_scopes scope_id).names name_id new_inst_id⟩
      else ctx.name_scopes s }

/-- `MergeImportRef(context, new_inst_id, prev_inst_id)`.

Resolve both sides with `ResolveMergeableInst` (a fatal abort in either call
propagates; the C++ never reaches the second call if the first aborts). If
either side is not mergeable, or the resolved kinds differ, call
`DiagnoseDuplicateName` and stop. On two function declarations, call
`MergeFunctionRedecl` with `new_is_import=true`, `new_is_definition=false`,
the previous function's id and the import id of the previous resolution.
Every other kind reaches `context.TODO`. The `As<FunctionDecl>` cast on the
previous instruction is guarded by the preceding kind-equality check; its
failure (unreachable) is modelled as a fatal abort. -/
def MergeImportRef (load : Ctx → Nat → Ctx) (ctx : Ctx) (new_inst_id : Nat)
    (prev_inst_id : Nat) : FatalOr Unit × List Event × Ctx :=
  match ResolveMergeableInst load ctx new_inst_id with
  | (.fatal i, e1, ctx1) => (.fatal i, e1, ctx1)
  | (.ok new_inst, e1, ctx1) =>
    match ResolveMergeableInst load ctx1 prev_inst_id with
    | (.fatal i, e2, ctx2) => (.fatal i, e1 ++ e2, ctx2)
    | (.ok prev_inst, e2, ctx2) =>
      match new_inst, prev_inst with
      | some n, some p =>
        if n.inst.kind ≠ p.inst.kind then
          (.ok (), e1 ++ e2 ++
            [Event.diagnoseDuplicateName new_inst_id prev_inst_id], ctx2)
        else
          match n.inst, p.inst with
          | .functionDecl new_function_id, .functionDecl prev_function_id =>
            (.ok (), e1 ++ e2 ++
              [Event.mergeFunctionRedecl (ctx2.loc_ids new_inst_id)
                 (ctx2.functions new_function_id) true false prev_function_id
                 p.import_ir_inst_id], ctx2)
          | .functionDecl _, q => (.fatal q, e1 ++ e2, ctx2)
          | _, _ =>
            (.ok (), e1 ++ e2 ++
              [Event.todo new_inst_id "Merging not yet supported."], ctx2)
      | _, _ =>
        (.ok (), e1 ++ e2 ++
          [Event.diagnoseDuplicateName new_inst_id prev_inst_id], ctx2)

/-- Recognizer for import-loader invocations. -/
def isLoadEvent : Event → Bool
  | .loadImportRef _ => true
  | _ => false

/-- Recognizer for constant-value-table reads. -/
def isConstQueryEvent : Event → Bool
  | .constQuery _ => true
  | _ => false

/-- Recognizer for `DiagnoseDuplicateName` calls. -/
def isDupNameEvent : Event → Bool
  | .diagnoseDuplicateName _ _ => true
  | _ => false

/-- Recognizer for `MergeFunctionRedecl` calls (the kind-specific merge
handler). -/
def isMergeFnEvent : Event → Bool
  | .mergeFunctionRedecl _ _ _ _ _ _ => true
  | _ => false

/-- Recognizer for `context.TODO` deferred diagnostics. -/
def isTodoEvent : Event → Bool
  | .todo _ _ => true
  | _ => false

/-- Recognizer for emitted diagnostics whose kind has error severity. -/
def isErrorDiagEvent : Event → Bool
  | .emitDiag k _ _ =>
      match k.severity with
      | .error => true
      | .note => false
  | _ => false

/-- Recognizer for any user-facing diagnostic: an emitted diagnostic, a
duplicate-name diagnostic, or a TODO diagnostic. -/
def isDiagEvent : Event → Bool
  | .emitDiag _ _ _ => true
  | .diagnoseDuplicateName _ _ => true
  | .todo _ _ => true
  | _ => false

/-! Helper lemmas about the resolver's event trace. -/

/-- `ResolveMergeableInst` only records loader calls and constant-table
reads: any predicate false on those two event shapes counts zero occurrences
in its trace. -/
theorem resolveMergeable_countP_eq_zero (p : Event → Bool)
    (hp1 : ∀ i, p (Event.loadImportRef i) = false)
    (hp2 : ∀ i, p (Event.constQuery i) = false)
    (load : Ctx → Nat → Ctx) (ctx : Ctx) (inst_id : Nat) :
    (ResolveMergeableInst load ctx inst_id).2.1.countP p = 0 := by
  cases h : ctx.insts inst_id <;>
    simp [ResolveMergeableInst, h, List.countP_cons, hp1, hp2]

/-! Concrete instruction store, constant table and context used by the
witness theorems. -/

/-- A small concrete instruction store. -/
def sampleInsts : Nat → Inst
  | 0 => .importRefUsed 5 7
  | 1 => .Namespace 3
  | 2 => .importRefUnloaded 4
  | 3 => .functionDecl 9
  | 4 => .importRefUsed 6 8
  | _ => .other 0

/-- A small concrete constant-value table: instruction 2 resolves to the
function declaration at 3, instruction 4 resolves to the namespace at 1, and
instruction 0 is non-constant. -/
def sampleConsts : Nat → ConstantId
  | 2 => .constantOf 3
  | 4 => .constantOf 1
  | _ => .notConstant

/-- Concrete context for witnesses. -/
def sampleCtx : Ctx :=
  { insts := sampleInsts
    constant_values := sampleConsts
    loc_ids := fun i => i + 100
    functions := fun f => f + 1000
    name_scopes := fun _ => ⟨[(1, 10), (2, 20)]⟩ }

/-- An import loader that leaves the context unchanged, used by witnesses
(theorems quantify over arbitrary loaders). -/
def idLoad : Ctx → Nat → Ctx := fun c _ => c

/-! Lemmas about association-list replacement, used for C9. -/

/-- Replacing an absent key is the identity. -/
theorem replaceInNames_of_none (l : List (Nat × Nat)) (name_id x : Nat)
    (h : lookupName l name_id = none) : replaceInNames l name_id x = l := by
  induction l with
  | nil => rfl
  | cons hd tl ih =>
    obtain ⟨k, v⟩ := hd
    by_cases hk : k = name_id
    · simp [lookupName, hk] at h
    · simp [lookupName, hk] at h
      simp [replaceInNames, hk, ih h]

/-- Replacing a present key makes the lookup return the new value. -/
theorem lookupName_replaceInNames_of_some (l : List (Nat × Nat))
    (name_id x v : Nat) (h : lookupName l name_id = some v) :
    lookupName (replaceInNames l name_id x) name_id = some x := by
  induction l with
  | nil => simp [lookupName] at h
  | cons hd tl ih =>
    obtain ⟨k, w⟩ := hd
    by_cases hk : k = name_id
    · simp [replaceInNames, lookupName, hk]
    · simp [lookupName, hk] at h
      simp [replaceInNames, lookupName, hk, ih h]

/-- Replacement never changes the key sequence: no entry is inserted or
removed. -/
theorem replaceInNames_map_fst (l : List (Nat × Nat)) (name_id x : Nat) :
    (replaceInNames l name_id x).map Prod.fst = l.map Prod.fst := by
  induction l with
  | nil => rfl
  | cons hd tl ih =>
    obtain ⟨k, w⟩ := hd
    by_cases hk : k = name_id
    · simp [replaceInNames, hk]
    · simp [replaceInNames, hk, ih]

/-- Claim C9: for every scope id, name, and new instruction id, the Scope
Rebinder overwrites an existing binding of the name with the new instruction
id; when the name has no binding in the scope the whole context is left
unchanged (nothing is inserted); and in every case the key sequence of the
scope's table is preserved. -/
theorem ReplacePrevInstForMerge_overwrite_or_noop
    (ctx : Ctx) (scope_id name_id new_inst_id : Nat) :
    ((∃ v, lookupName (ctx.name_scopes scope_id).names name_id = some v) →
      lookupName
        ((ReplacePrevInstForMerge ctx scope_id name_id
            new_inst_id).name_scopes scope_id).names name_id
        = some new_inst_id) ∧
    (lookupName (ctx.name_scopes scope_id).names name_id = none →
      ReplacePrevInstForMerge ctx scope_id name_id new_inst_id = ctx) ∧
    ((ReplacePrevInstForMerge ctx scope_id name_id
        new_inst_id).name_scopes scope_id).names.map Prod.fst
      = (ctx.name_scopes scope_id).names.map Prod.fst := by
  refine ⟨?_, ?_, ?_⟩
  · rintro ⟨v, hv⟩
    simp [ReplacePrevInstForMerge]
    exact lookupName_replaceInNames_of_some _ _ _ _ hv
  · intro h
    have hrep := replaceInNames_of_none _ name_id new_inst_id h
    have hfun : (fun s =>
        if s = scope_id then
          ⟨replaceInNames (ctx.name_scopes scope_id).names name_id
            new_inst_id⟩
        else ctx.name_scopes s) = ctx.name_scopes := by
      funext s
      by_cases hs : s = scope_id
      · subst hs; simp [hrep]
      · simp [hs]
    simp [ReplacePrevInstForMerge, hfun]
  · simp [ReplacePrevInstForMerge, replaceInNames_map_fst]

/-- Witness for C9 at a concrete scope: name 1 is bound (to 10) and gets
overwritten with 42; name 5 is absent and the context is unchanged. -/
theorem ReplacePrevInstForMerge_overwrite_or_noop_witness :
    (∃ v, lookupName ((sampleCtx.name_scopes 0).names) 1 = some v) ∧
    lookupName
      ((ReplacePrevInstForMerge sampleCtx 0 1 42).name_scopes 0).names 1
      = some 42 ∧
    lookupName ((sampleCtx.name_scopes 0).names) 5 = none ∧
    ReplacePrevInstForMerge sampleCtx 0 5 42 = sampleCtx :=
  ⟨⟨10, by decide⟩,
   (ReplacePrevInstForMerge_overwrite_or_noop sampleCtx 0 1 42).1
     ⟨10, by decide⟩,
   by decide,
   (ReplacePrevInstForMerge_overwrite_or_noop sampleCtx 0 5 42).2.1
     (by decide)⟩

/-- Claim C3: on an instruction whose kind is neither an import-reference
variant nor Namespace, the Mergeable-Instruction Resolver aborts fatally,
identifying the offending instruction and returning no result; and on any
kind inside the documented precondition the fatal branch is unreachable. -/
theorem ResolveMergeableInst_precondition_fatal
    (load : Ctx → Nat → Ctx) (ctx : Ctx) (inst_id : Nat) :
    ((ctx.insts inst_id).kind ≠ .ImportRefUnloaded →
     (ctx.insts inst_id).kind ≠ .ImportRefUsed →
     (ctx.insts inst_id).kind ≠ .Namespace →
      ResolveMergeableInst load ctx inst_id =
        (.fatal (ctx.insts inst_id), [], ctx)) ∧
    ((ctx.insts inst_id).kind = .ImportRefUnloaded ∨
     (ctx.insts inst_id).kind = .ImportRefUsed ∨
     (ctx.insts inst_id).kind = .Namespace →
      (ResolveMergeableInst load ctx inst_id).1.isFatal = false) := by
  cases h : ctx.insts inst_id <;>
    constructor <;>
    intro hk <;>
    simp [Inst.kind, h] at hk ⊢ <;>
    simp [ResolveMergeableInst, h] <;>
    (try split) <;>
    simp [FatalOr.isFatal]

/-- Witness for C3: instruction 5 of the sample context has kind `Other`,
outside the resolver's precondition, and the resolver aborts fatally on
it. -/
theorem ResolveMergeableInst_precondition_fatal_witness :
    ((sampleCtx.insts 5).kind ≠ .ImportRefUnloaded ∧
     (sampleCtx.insts 5).kind ≠ .ImportRefUsed ∧
     (sampleCtx.insts 5).kind ≠ .Namespace) ∧
    ResolveMergeableInst idLoad sampleCtx 5 =
      (.fatal (sampleCtx.insts 5), [], sampleCtx) :=
  ⟨⟨by decide, by decide, by decide⟩,
   (ResolveMergeableInst_precondition_fatal idLoad sampleCtx 5).1
     (by decide) (by decide) (by decide)⟩

/-- Claim C4: on a Namespace instruction the Mergeable-Instruction Resolver
returns that very instruction paired with no originating import, with an
empty event trace (no import-loader call, no constant-value-table read) and
an unchanged context. -/
theorem ResolveMergeableInst_namespace_immediate
    (load : Ctx → Nat → Ctx) (ctx : Ctx) (inst_id : Nat) (ns : Nat)
    (h : ctx.insts inst_id = .Namespace ns) :
    ResolveMergeableInst load ctx inst_id =
      (.ok (some ⟨ctx.insts inst_id, none⟩), [], ctx) ∧
    (ResolveMergeableInst load ctx inst_id).2.1.countP isLoadEvent = 0 ∧
    (ResolveMergeableInst load ctx inst_id).2.1.countP isConstQueryEvent
      = 0 := by
  refine ⟨?_, ?_, ?_⟩ <;> simp [ResolveMergeableInst, h]

/-- Witness for C4: instruction 1 of the sample context is a Namespace and
resolves to itself with no import, no loader call and no table read. -/
theorem ResolveMergeableInst_namespace_immediate_witness :
    sampleCtx.insts 1 = .Namespace 3 ∧
    ResolveMergeableInst idLoad sampleCtx 1 =
      (.ok (some ⟨sampleCtx.insts 1, none⟩), [], sampleCtx) :=
  ⟨by decide,
   (ResolveMergeableInst_namespace_immediate idLoad sampleCtx 1 3
     (by decide)).1⟩

/-- Claim C5: when the previous binding is an import reference already
marked used and the constant-value table entry for it is constant, the
Merge-Candidate Resolver emits exactly one Error diagnostic
(`RedeclOfUsedImport`) with exactly one attached Note (`UsedImportLoc`)
located at the reference's recorded use location, and still returns the
instruction designated by the constant-value table entry, paired with the
reference's import id. -/
theorem ResolvePrevInstForMerge_used_import_diagnoses
    (ctx : Ctx) (node_id prev_inst_id ir_id used_id c : Nat)
    (h1 : ctx.insts prev_inst_id = .importRefUsed ir_id used_id)
    (h2 : ctx.constant_values prev_inst_id = .constantOf c) :
    ResolvePrevInstForMerge ctx node_id prev_inst_id =
      (some ⟨ctx.insts c, some ir_id⟩,
       [Event.emitDiag .RedeclOfUsedImport node_id [(.UsedImportLoc, used_id)],
        Event.constQuery prev_inst_id]) ∧
    (ResolvePrevInstForMerge ctx node_id prev_inst_id).2.countP
      isErrorDiagEvent = 1 ∧
    DiagKind.severity .RedeclOfUsedImport = .error ∧
    DiagKind.severity .UsedImportLoc = .note := by
  refine ⟨?_, ?_, rfl, rfl⟩ <;>
    simp [ResolvePrevInstForMerge, h1, h2, List.countP_cons, isErrorDiagEvent,
      DiagKind.severity]

/-- Witness for C5: instruction 4 of the sample context is a used import
reference (use location 8) whose constant value designates instruction 1;
resolving it emits the error-plus-note and returns instruction 1 with import
id 6. -/
theorem ResolvePrevInstForMerge_used_import_diagnoses_witness :
    sampleCtx.insts 4 = .importRefUsed 6 8 ∧
    ResolvePrevInstForMerge sampleCtx 30 4 =
      (some ⟨sampleCtx.insts 1, some 6⟩,
       [Event.emitDiag .RedeclOfUsedImport 30 [(.UsedImportLoc, 8)],
        Event.constQuery 4]) :=
  ⟨by decide,
   (ResolvePrevInstForMerge_used_import_diagnoses sampleCtx 30 4 6 8 1
     (by decide) (by decide)).1⟩

/-- Claim C10: when the previous binding is an unloaded import reference
whose constant-value table entry is constant, the Merge-Candidate Resolver
reads the table directly and returns the designated instruction paired with
the reference's import id, emitting no diagnostic; moreover on every input
the Merge-Candidate Resolver never invokes the import loader (only the
Mergeable-Instruction Resolver triggers loading), and it returns no updated
context at all — the reference's load state is untouched. -/
theorem ResolvePrevInstForMerge_unloaded_no_load
    (ctx : Ctx) (node_id prev_inst_id ir_id c : Nat)
    (h1 : ctx.insts prev_inst_id = .importRefUnloaded ir_id)
    (h2 : ctx.constant_values prev_inst_id = .constantOf c) :
    ResolvePrevInstForMerge ctx node_id prev_inst_id =
      (some ⟨ctx.insts c, some ir_id⟩, [Event.constQuery prev_inst_id]) ∧
    (ResolvePrevInstForMerge ctx node_id prev_inst_id).2.countP isDiagEvent
      = 0 ∧
    (∀ nid pid,
      (ResolvePrevInstForMerge ctx nid pid).2.countP isLoadEvent = 0) := by
  refine ⟨?_, ?_, ?_⟩
  · simp [ResolvePrevInstForMerge, h1, h2]
  · simp [ResolvePrevInstForMerge, h1, h2, List.countP_cons, isDiagEvent]
  · intro nid pid
    cases h : ctx.insts pid <;>
      simp [ResolvePrevInstForMerge, h, List.countP_cons, isLoadEvent]

/-- Witness for C10: instruction 2 of the sample context is an unloaded
reference to an import whose constant value designates instruction 3; resolving it
emits nothing and returns instruction 3 with import id 4. -/
theorem ResolvePrevInstForMerge_unloaded_no_load_witness :
    sampleCtx.insts 2 = .importRefUnloaded 4 ∧
    ResolvePrevInstForMerge sampleCtx 31 2 =
      (some ⟨sampleCtx.insts 3, some 4⟩, [Event.constQuery 2]) :=
  ⟨by decide,
   (ResolvePrevInstForMerge_unloaded_no_load sampleCtx 31 2 4 3
     (by decide) (by decide)).1⟩

/-- The trace of a `ResolveMergeableInst` call contains no duplicate-name
diagnostic, no merge-handler call, no TODO and no emitted diagnostic. -/
theorem resolveMergeable_trace_counts (load : Ctx → Nat → Ctx) (ctx : Ctx)
    (inst_id : Nat) :
    (ResolveMergeableInst load ctx inst_id).2.1.countP isDupNameEvent = 0 ∧
    (ResolveMergeableInst load ctx inst_id).2.1.countP isMergeFnEvent = 0 ∧
    (ResolveMergeableInst load ctx inst_id).2.1.countP isTodoEvent = 0 ∧
    (ResolveMergeableInst load ctx inst_id).2.1.countP isDiagEvent = 0 :=
  ⟨resolveMergeable_countP_eq_zero _ (fun _ => rfl) (fun _ => rfl) load ctx
     inst_id,
   resolveMergeable_countP_eq_zero _ (fun _ => rfl) (fun _ => rfl) load ctx
     inst_id,
   resolveMergeable_countP_eq_zero _ (fun _ => rfl) (fun _ => rfl) load ctx
     inst_id,
   resolveMergeable_countP_eq_zero _ (fun _ => rfl) (fun _ => rfl) load ctx
     inst_id⟩

/-- Claim C1: when the Mergeable-Instruction Resolver returns (without
aborting) for both ids and reports "not mergeable" for at least one of them,
the Merge Orchestrator calls `DiagnoseDuplicateName` on the new/previous
pair exactly once, invokes no kind-specific merge handler and no TODO, and
finishes without a fatal error. -/
theorem MergeImportRef_not_mergeable
    (load : Ctx → Nat → Ctx) (ctx ctx1 ctx2 : Ctx)
    (new_inst_id prev_inst_id : Nat) (a b : Option InstForMerge)
    (e1 e2 : List Event)
    (h1 : ResolveMergeableInst load ctx new_inst_id = (.ok a, e1, ctx1))
    (h2 : ResolveMergeableInst load ctx1 prev_inst_id = (.ok b, e2, ctx2))
    (h3 : a = none ∨ b = none) :
    MergeImportRef load ctx new_inst_id prev_inst_id =
      (.ok (), e1 ++ e2 ++
        [Event.diagnoseDuplicateName new_inst_id prev_inst_id], ctx2) ∧
    (MergeImportRef load ctx new_inst_id prev_inst_id).2.1.countP
      isDupNameEvent = 1 ∧
    (MergeImportRef load ctx new_inst_id prev_inst_id).2.1.countP
      isMergeFnEvent = 0 ∧
    (MergeImportRef load ctx new_inst_id prev_inst_id).2.1.countP
      isTodoEvent = 0 := by
  obtain ⟨z1, z2, z3, -⟩ := resolveMergeable_trace_counts load ctx new_inst_id
  obtain ⟨w1, w2, w3, -⟩ :=
    resolveMergeable_trace_counts load ctx1 prev_inst_id
  rw [h1] at z1 z2 z3
  rw [h2] at w1 w2 w3
  simp only at z1 z2 z3 w1 w2 w3
  have hM : MergeImportRef load ctx new_inst_id prev_inst_id =
      (.ok (), e1 ++ e2 ++
        [Event.diagnoseDuplicateName new_inst_id prev_inst_id], ctx2) := by
    rcases h3 with rfl | rfl
    · cases b <;> simp [MergeImportRef, h1, h2]
    · cases a <;> simp [MergeImportRef, h1, h2]
  refine ⟨hM, ?_, ?_, ?_⟩ <;>
    rw [hM] <;>
    simp [List.countP_append, List.countP_cons, isDupNameEvent, isMergeFnEvent,
      isTodoEvent, z1, z2, z3, w1, w2, w3]

/-- Witness for C1: instruction 0 of the sample context is a used import
reference whose constant value is non-constant, so its resolution is "not
mergeable"; merging new 0 against previous 1 emits exactly the duplicate-name
diagnostic. -/
theorem MergeImportRef_not_mergeable_witness :
    ResolveMergeableInst idLoad sampleCtx 0 =
      (.ok none, [Event.constQuery 0], sampleCtx) ∧
    MergeImportRef idLoad sampleCtx 0 1 =
      (.ok (), [Event.constQuery 0] ++ [] ++
        [Event.diagnoseDuplicateName 0 1], sampleCtx) :=
  ⟨rfl,
   (MergeImportRef_not_mergeable idLoad sampleCtx sampleCtx sampleCtx 0 1
      none (some ⟨.Namespace 3, none⟩) [Event.constQuery 0] [] rfl rfl
      (Or.inl rfl)).1⟩

/-- Claim C6: when both resolutions succeed but the resolved instructions
have differing kinds, the Merge Orchestrator calls `DiagnoseDuplicateName`
exactly once and invokes no kind-specific merge handler and no TODO. -/
theorem MergeImportRef_kind_mismatch
    (load : Ctx → Nat → Ctx) (ctx ctx1 ctx2 : Ctx)
    (new_inst_id prev_inst_id : Nat) (ni pi : Inst) (ia ib : Option Nat)
    (e1 e2 : List Event)
    (h1 : ResolveMergeableInst load ctx new_inst_id =
      (.ok (some ⟨ni, ia⟩), e1, ctx1))
    (h2 : ResolveMergeableInst load ctx1 prev_inst_id =
      (.ok (some ⟨pi, ib⟩), e2, ctx2))
    (hk : ni.kind ≠ pi.kind) :
    MergeImportRef load ctx new_inst_id prev_inst_id =
      (.ok (), e1 ++ e2 ++
        [Event.diagnoseDuplicateName new_inst_id prev_inst_id], ctx2) ∧
    (MergeImportRef load ctx new_inst_id prev_inst_id).2.1.countP
      isDupNameEvent = 1 ∧
    (MergeImportRef load ctx new_inst_id prev_inst_id).2.1.countP
      isMergeFnEvent = 0 ∧
    (MergeImportRef load ctx new_inst_id prev_inst_id).2.1.countP
      isTodoEvent = 0 := by
  obtain ⟨z1, z2, z3, -⟩ := resolveMergeable_trace_counts load ctx new_inst_id
  obtain ⟨w1, w2, w3, -⟩ :=
    resolveMergeable_trace_counts load ctx1 prev_inst_id
  rw [h1] at z1 z2 z3
  rw [h2] at w1 w2 w3
  simp only at z1 z2 z3 w1 w2 w3
  have hM : MergeImportRef load ctx new_inst_id prev_inst_id =
      (.ok (), e1 ++ e2 ++
        [Event.diagnoseDuplicateName new_inst_id prev_inst_id], ctx2) := by
    simp [MergeImportRef, h1, h2, hk]
  refine ⟨hM, ?_, ?_, ?_⟩ <;>
    rw [hM] <;>
    simp [List.countP_append, List.countP_cons, isDupNameEvent, isMergeFnEvent,
      isTodoEvent, z1, z2, z3, w1, w2, w3]

/-- Witness for C6: new instruction 2 resolves (after loading) to the
function declaration at 3, previous instruction 1 resolves to the namespace
at 1; the kinds differ and merging emits the duplicate-name diagnostic. -/
theorem MergeImportRef_kind_mismatch_witness :
    (Inst.functionDecl 9).kind ≠ (Inst.Namespace 3).kind ∧
    MergeImportRef idLoad sampleCtx 2 1 =
      (.ok (), [Event.loadImportRef 2, Event.constQuery 2] ++ [] ++
        [Event.diagnoseDuplicateName 2 1], sampleCtx) :=
  ⟨by decide,
   (MergeImportRef_kind_mismatch idLoad sampleCtx sampleCtx sampleCtx 2 1
      (.functionDecl 9) (.Namespace 3) (some 4) none
      [Event.loadImportRef 2, Event.constQuery 2] [] rfl rfl
      (by decide)).1⟩

/-- Claim C7: when both sides resolve successfully to function declarations,
the Merge Orchestrator calls `MergeFunctionRedecl` exactly once, passing the
new function fetched from the function store, `new_is_import=true`,
`new_is_definition=false`, the previous function's id, and the import id
recorded on the previous side's resolution; no duplicate-name diagnostic and
no TODO is emitted. -/
theorem MergeImportRef_function_decls
    (load : Ctx → Nat → Ctx) (ctx ctx1 ctx2 : Ctx)
    (new_inst_id prev_inst_id nf pf : Nat) (ia ib : Option Nat)
    (e1 e2 : List Event)
    (h1 : ResolveMergeableInst load ctx new_inst_id =
      (.ok (some ⟨.functionDecl nf, ia⟩), e1, ctx1))
    (h2 : ResolveMergeableInst load ctx1 prev_inst_id =
      (.ok (some ⟨.functionDecl pf, ib⟩), e2, ctx2)) :
    MergeImportRef load ctx new_inst_id prev_inst_id =
      (.ok (), e1 ++ e2 ++
        [Event.mergeFunctionRedecl (ctx2.loc_ids new_inst_id)
          (ctx2.functions nf) true false pf ib], ctx2) ∧
    (MergeImportRef load ctx new_inst_id prev_inst_id).2.1.countP
      isMergeFnEvent = 1 ∧
    (MergeImportRef load ctx new_inst_id prev_inst_id).2.1.countP
      isDupNameEvent = 0 ∧
    (MergeImportRef load ctx new_inst_id prev_inst_id).2.1.countP
      isTodoEvent = 0 := by
  obtain ⟨z1, z2, z3, -⟩ := resolveMergeable_trace_counts load ctx new_inst_id
  obtain ⟨w1, w2, w3, -⟩ :=
    resolveMergeable_trace_counts load ctx1 prev_inst_id
  rw [h1] at z1 z2 z3
  rw [h2] at w1 w2 w3
  simp only at z1 z2 z3 w1 w2 w3
  have hM : MergeImportRef load ctx new_inst_id prev_inst_id =
      (.ok (), e1 ++ e2 ++
        [Event.mergeFunctionRedecl (ctx2.loc_ids new_inst_id)
          (ctx2.functions nf) true false pf ib], ctx2) := by
    simp [MergeImportRef, h1, h2, Inst.kind]
  refine ⟨hM, ?_, ?_, ?_⟩ <;>
    rw [hM] <;>
    simp [List.countP_append, List.countP_cons, isDupNameEvent, isMergeFnEvent,
      isTodoEvent, z1, z2, z3, w1, w2, w3]

/-- Witness for C7: both sides of the merge are instruction 2, which
resolves to the function declaration at 3 with function id 9 and import id
4; `MergeFunctionRedecl` is called with the fetched function, the flags
true/false, previous function id 9 and import id 4. -/
theorem MergeImportRef_function_decls_witness :
    MergeImportRef idLoad sampleCtx 2 2 =
      (.ok (), [Event.loadImportRef 2, Event.constQuery 2] ++
        [Event.loadImportRef 2, Event.constQuery 2] ++
        [Event.mergeFunctionRedecl (sampleCtx.loc_ids 2)
          (sampleCtx.functions 9) true false 9 (some 4)], sampleCtx) :=
  (MergeImportRef_function_decls idLoad sampleCtx sampleCtx sampleCtx 2 2 9 9
    (some 4) (some 4) [Event.loadImportRef 2, Event.constQuery 2]
    [Event.loadImportRef 2, Event.constQuery 2] rfl rfl).1

/-- Claim C8: when both sides resolve successfully to the same kind and that
kind is not FunctionDecl (notably, two namespaces), the Merge Orchestrator
calls `context.TODO` with "Merging not yet supported." exactly once and
performs no merge: no merge-handler call and no duplicate-name
diagnostic. -/
theorem MergeImportRef_unsupported_kind
    (load : Ctx → Nat → Ctx) (ctx ctx1 ctx2 : Ctx)
    (new_inst_id prev_inst_id : Nat) (ni pi : Inst) (ia ib : Option Nat)
    (e1 e2 : List Event)
    (h1 : ResolveMergeableInst load ctx new_inst_id =
      (.ok (some ⟨ni, ia⟩), e1, ctx1))
    (h2 : ResolveMergeableInst load ctx1 prev_inst_id =
      (.ok (some ⟨pi, ib⟩), e2, ctx2))
    (hk : ni.kind = pi.kind) (hnf : ni.kind ≠ .FunctionDecl) :
    MergeImportRef load ctx new_inst_id prev_inst_id =
      (.ok (), e1 ++ e2 ++
        [Event.todo new_inst_id "Merging not yet supported."], ctx2) ∧
    (MergeImportRef load ctx new_inst_id prev_inst_id).2.1.countP
      isTodoEvent = 1 ∧
    (MergeImportRef load ctx new_inst_id prev_inst_id).2.1.countP
      isMergeFnEvent = 0 ∧
    (MergeImportRef load ctx new_inst_id prev_inst_id).2.1.countP
      isDupNameEvent = 0 := by
  obtain ⟨z1, z2, z3, -⟩ := resolveMergeable_trace_counts load ctx new_inst_id
  obtain ⟨w1, w2, w3, -⟩ :=
    resolveMergeable_trace_counts load ctx1 prev_inst_id
  rw [h1] at z1 z2 z3
  rw [h2] at w1 w2 w3
  simp only at z1 z2 z3 w1 w2 w3
  have hM : MergeImportRef load ctx new_inst_id prev_inst_id =
      (.ok (), e1 ++ e2 ++
        [Event.todo new_inst_id "Merging not yet supported."], ctx2) := by
    cases ni <;> simp [Inst.kind] at hnf <;>
      simp [MergeImportRef, h1, h2, hk, Inst.kind] <;>
      simp [Inst.kind] at hk <;>
      cases pi <;> simp [Inst.kind] at hk ⊢
  refine ⟨hM, ?_, ?_, ?_⟩ <;>
    rw [hM] <;>
    simp [List.countP_append, List.countP_cons, isDupNameEvent, isMergeFnEvent,
      isTodoEvent, z1, z2, z3, w1, w2, w3]

/-- Witness for C8: new instruction 1 is a namespace and previous
instruction 4 resolves (through its constant value) to the same namespace
instruction; the kinds agree and are not FunctionDecl, so merging emits the
TODO diagnostic and nothing else. -/
theorem MergeImportRef_unsupported_kind_witness :
    (Inst.Namespace 3).kind = (Inst.Namespace 3).kind ∧
    (Inst.Namespace 3).kind ≠ InstKind.FunctionDecl ∧
    MergeImportRef idLoad sampleCtx 1 4 =
      (.ok (), [] ++ [Event.constQuery 4] ++
        [Event.todo 1 "Merging not yet supported."], sampleCtx) :=
  ⟨rfl, by decide,
   (MergeImportRef_unsupported_kind idLoad sampleCtx sampleCtx sampleCtx 1 4
      (.Namespace 3) (.Namespace 3) none (some 6) []
      [Event.constQuery 4] rfl rfl rfl (by decide)).1⟩

/-- Counterexample to claim C2: instruction 3 of the sample context is a
local (non-imported) function declaration; merging a new local function
declaration against a previous local function declaration does not invoke
the function-redeclaration collaborator at all — the Merge Orchestrator
aborts fatally in `ResolveMergeableInst`, whose precondition excludes local
declarations. -/
theorem MergeImportRef_local_function_decls_cex :
    sampleCtx.insts 3 = .functionDecl 9 ∧
    (MergeImportRef idLoad sampleCtx 3 3).1 = .fatal (.functionDecl 9) ∧
    (MergeImportRef idLoad sampleCtx 3 3).2.1.countP isMergeFnEvent = 0 :=
  ⟨rfl, rfl, rfl⟩

/-- Claim C2 (amended): a local (non-imported) function declaration is
outside the Mergeable-Instruction Resolver's documented precondition, so
when the new instruction is a local function declaration the Merge
Orchestrator aborts fatally at the resolver and never invokes the
function-redeclaration collaborator; the local previous function declaration
is instead returned unchanged, with no originating import id, by the
Merge-Candidate Resolver (the "no import id" semantics the claim
describes). -/
theorem MergeImportRef_local_function_decls
    (load : Ctx → Nat → Ctx) (ctx : Ctx)
    (new_inst_id prev_inst_id node_id nf pf : Nat)
    (h1 : ctx.insts new_inst_id = .functionDecl nf)
    (h2 : ctx.insts prev_inst_id = .functionDecl pf) :
    (MergeImportRef load ctx new_inst_id prev_inst_id).1 =
      .fatal (.functionDecl nf) ∧
    (MergeImportRef load ctx new_inst_id prev_inst_id).2.1.countP
      isMergeFnEvent = 0 ∧
    ResolvePrevInstForMerge ctx node_id prev_inst_id =
      (some ⟨.functionDecl pf, none⟩, []) := by
  have hr : ResolveMergeableInst load ctx new_inst_id =
      (.fatal (.functionDecl nf), [], ctx) := by
    simp [ResolveMergeableInst, h1]
  refine ⟨?_, ?_, ?_⟩
  · simp [MergeImportRef, hr]
  · simp [MergeImportRef, hr]
  · simp [ResolvePrevInstForMerge, h2]

/-- Witness for the amended C2 at the sample context: both ids name the
local function declaration at 3. -/
theorem MergeImportRef_local_function_decls_witness :
    sampleCtx.insts 3 = .functionDecl 9 ∧
    (MergeImportRef idLoad sampleCtx 3 3).2.1.countP isMergeFnEvent = 0 ∧
    ResolvePrevInstForMerge sampleCtx 32 3 =
      (some ⟨.functionDecl 9, none⟩, []) :=
  ⟨by decide,
   (MergeImportRef_local_function_decls idLoad sampleCtx 3 3 32 9 9
      (by decide) (by decide)).2.1,
   (MergeImportRef_local_function_decls idLoad sampleCtx 3 3 32 9 9
      (by decide) (by decide)).2.2⟩
